import Mathlib

/-!
Verification of the ESB OMS Python SDK response-interpretation and
authentication layer (`esb_oms/_http.py`, `esb_oms/_base.py`).

The development shallowly embeds the response classifier
(`HTTPClient._handle_response`), the request-header merge
(`HTTPClient.request` together with `BearerHTTPClient._prepare_auth`), and
the session manager (`BaseClient.login` / `refresh_token` /
`ensure_authenticated`) as executable Lean functions, and proves the
specified properties about them.
-/

namespace EsbOms

/-- A parsed JSON value, as produced by Python's `json` module.  An
integer literal (no fraction, no exponent) is a Python `int` (`num`); a
literal with a fraction or exponent is a Python `float`, carried as
`fnum m e` denoting the decimal value `m × 10^e` of the literal (Python
rounds it to the nearest IEEE double, but no code in this client ever
inspects a float's value: floats only ride along opaquely inside
validation-detail payloads); `inf`/`nan` are the non-standard
`Infinity`/`-Infinity`/`NaN` literals Python's decoder accepts by
default. -/
inductive Json where
  | null
  | bool (b : Bool)
  | num (n : Int)
  | fnum (m : Int) (e : Int)
  | inf (neg : Bool)
  | nan
  | str (s : String)
  | arr (elems : List Json)
  | obj (fields : List (String × Json))

/-- Python truthiness (`bool(x)`) for JSON values: `None`, `False`, `0`,
`0.0`, `""`, `[]` and `\x7b\x7d` are falsy, everything else is truthy
(`inf` and `nan` are truthy).  A float literal is falsy exactly when its
written value is zero; literals so small that Python's double conversion
underflows to `0.0` are not distinguished, and never reach a truthiness
test in this client. -/
def pyTruthy : Json → Bool
  | .null => false
  | .bool b => b
  | .num n => n != 0
  | .fnum m _ => m != 0
  | .inf _ => true
  | .nan => true
  | .str s => s != ""
  | .arr elems => !elems.isEmpty
  | .obj fields => !fields.isEmpty

/-- Python's `a or b` on JSON values: `a` if truthy, else `b`. -/
def pyOrJ (a b : Json) : Json := if pyTruthy a then a else b

/-- Python's `str()` coercion, as applied by the classifier to the body's
`status` field.  `None`, booleans, ints, strings, `inf` and `nan` are
rendered exactly as Python renders them; a list or dict is abbreviated to
its opening bracket and a finite float to a mantissa-exponent form —
Python's `str()` of a container always begins with that bracket and its
`str()` of a finite float always contains a `.` or an `e`, so neither can
ever equal any of the short lowercase keywords (`ok`, `00`, `fail`,
`failed`, `01`) the classifier compares the result against, and
classification is unaffected by the abbreviation. -/
def pyStr : Json → String
  | .null => "None"
  | .bool b => if b then "True" else "False"
  | .num n => toString n
  | .fnum m e => toString m ++ "e" ++ toString e
  | .inf neg => if neg then "-inf" else "inf"
  | .nan => "nan"
  | .str s => s
  | .arr _ => "["
  | .obj _ => "\x7b"

/-- Whether `needle` occurs as a contiguous subsequence of `l`
(Python's `needle in haystack` on strings, over char lists). -/
def hasSubList (needle : List Char) : List Char → Bool
  | [] => needle.isEmpty
  | c :: rest => needle.isPrefixOf (c :: rest) || hasSubList needle rest

/-- Python's `needle in hay` substring test. -/
def strContains (hay needle : String) : Bool :=
  hasSubList needle.toList hay.toList

/-- Python's `str.lower()` (ASCII range — every keyword and code this
client lowercases or compares against is ASCII). -/
def strLower (s : String) : String :=
  String.mk (s.toList.map Char.toLower)

/-- ASCII whitespace, as stripped by Python's `int()`. -/
def isSpaceChar (c : Char) : Bool :=
  c = ' ' || c = '\t' || c = '\n' || c = '\r' || c = Char.ofNat 11 || c = Char.ofNat 12

/-- Strip leading and trailing whitespace. -/
def trimChars (cs : List Char) : List Char :=
  ((cs.dropWhile isSpaceChar).reverse.dropWhile isSpaceChar).reverse

/-- Python's `int(s)` on a string: strips surrounding whitespace, accepts
an optional sign followed by one or more digits with optional single
underscores between digits (`int("1_0") = 10`), and fails (raises
`ValueError`, modelled as `none`) otherwise.  Python additionally accepts
non-ASCII Unicode decimal digits; those are not modelled (no header value
this development reasons about contains them). -/
def pyParseInt (s : String) : Option Int :=
  let core : List Char → Option Int := fun ds =>
    if ds.isEmpty then none
    else if ds.head? = some '_' || ds.getLast? = some '_' then none
    else if (ds.zip ds.tail).any (fun p => p.1 = '_' && p.2 = '_') then none
    else if ds.all (fun c => c.isDigit || c = '_') then
      some ((ds.filter (fun c => c != '_')).foldl
        (fun acc c => acc * 10 + (Int.ofNat (c.toNat - 48))) 0)
    else none
  match trimChars s.toList with
  | '+' :: rest => core rest
  | '-' :: rest => (core rest).map Int.neg
  | cs => core cs

/-- Case-insensitive response-header lookup, as performed by
`httpx.Headers.get`. -/
def headerGet (headers : List (String × String)) (name : String) : Option String :=
  (headers.find? (fun kv => strLower kv.1 == strLower name)).map (·.2)

/-- The opening-brace character, written out to keep the source free of
literal braces in character position. -/
def lbrace : Char := Char.ofNat 123

/-- The closing-brace character. -/
def rbrace : Char := Char.ofNat 125

/-- Drop leading JSON whitespace. -/
def skipWs : List Char → List Char
  | c :: cs => if c = ' ' || c = '\t' || c = '\n' || c = '\r' then skipWs cs else c :: cs
  | [] => []

/-- Value of one hex digit. -/
def hexVal (h : Char) : Option Nat :=
  if h.isDigit then some (h.toNat - 48)
  else if 'a' ≤ h && h ≤ 'f' then some (h.toNat - 87)
  else if 'A' ≤ h && h ≤ 'F' then some (h.toNat - 55)
  else none

/-- Parse the four hex digits of a `\uXXXX` escape (the characters after
`\u`), returning the code unit and the remainder. -/
def parseHex4 : List Char → Option (Nat × List Char)
  | h1 :: h2 :: h3 :: h4 :: cs =>
    match hexVal h1, hexVal h2, hexVal h3, hexVal h4 with
    | some a, some b, some c, some d => some (a * 4096 + b * 256 + c * 16 + d, cs)
    | _, _, _, _ => none
  | _ => none

/-- Decode one escape of a JSON string (the characters after the
backslash), returning the decoded character and the remainder, as Python's
decoder does.  A `\uXXXX` high surrogate immediately followed by a
`\uXXXX` low surrogate decodes to the combined astral character; an
unpaired surrogate — which Python keeps as a lone surrogate code unit in
its string — has no counterpart in Lean's (valid-Unicode) strings and is
represented by U+FFFD; neither kind reaches any comparison this client
performs. -/
def decodeEscape : List Char → Option (Char × List Char)
  | [] => none
  | e :: cs2 =>
    if e = '"' then some ('"', cs2)
    else if e = '\\' then some ('\\', cs2)
    else if e = '/' then some ('/', cs2)
    else if e = 'n' then some ('\n', cs2)
    else if e = 't' then some ('\t', cs2)
    else if e = 'r' then some ('\r', cs2)
    else if e = 'b' then some (Char.ofNat 8, cs2)
    else if e = 'f' then some (Char.ofNat 12, cs2)
    else if e = 'u' then
      match parseHex4 cs2 with
      | none => none
      | some (a, cs3) =>
        if 0xD800 ≤ a && a ≤ 0xDBFF then
          match cs3 with
          | '\\' :: 'u' :: cs4 =>
            match parseHex4 cs4 with
            | some (b, cs5) =>
              if 0xDC00 ≤ b && b ≤ 0xDFFF then
                some (Char.ofNat (0x10000 + (a - 0xD800) * 0x400 + (b - 0xDC00)), cs5)
              else some (Char.ofNat 0xFFFD, cs3)
            | none => some (Char.ofNat 0xFFFD, cs3)
          | _ => some (Char.ofNat 0xFFFD, cs3)
        else if 0xDC00 ≤ a && a ≤ 0xDFFF then some (Char.ofNat 0xFFFD, cs3)
        else some (Char.ofNat a, cs3)
    else none

/-- Parse a JSON string body (the characters after the opening quote),
returning the decoded string and the remainder after the closing quote.
Handles the standard escapes and `\uXXXX` escapes (with surrogate-pair
combination), and rejects unescaped control characters below U+0020 as
Python's decoder does in its default strict mode.  The first argument is
recursion fuel, at least the input length. -/
def parseStrBodyF : Nat → List Char → Option (String × List Char)
  | 0, _ => none
  | _, [] => none
  | fuel + 1, c :: cs =>
    if c = '"' then some ("", cs)
    else if c = '\\' then
      match decodeEscape cs with
      | some (ch, rest) =>
        match parseStrBodyF fuel rest with
        | some (s, rest2) => some (String.singleton ch ++ s, rest2)
        | none => none
      | none => none
    else if c.toNat < 32 then none
    else
      match parseStrBodyF fuel cs with
      | some (s, rest2) => some (String.singleton c ++ s, rest2)
      | none => none

/-- Parse a JSON string body with sufficient fuel. -/
def parseStrBody (cs : List Char) : Option (String × List Char) :=
  parseStrBodyF (cs.length + 1) cs

/-- Split a leading run of decimal digits from the rest. -/
def takeDigits : List Char → List Char × List Char
  | [] => ([], [])
  | c :: cs =>
    if c.isDigit then
      let p := takeDigits cs
      (c :: p.1, p.2)
    else ([], c :: cs)

/-- Numeric value of a digit run. -/
def digitsVal (ds : List Char) : Int :=
  ds.foldl (fun acc c => acc * 10 + Int.ofNat (c.toNat - 48)) 0

/-- Parse one JSON number, starting at its first character (`-` or a
digit), following the grammar Python's decoder matches
(`-?(?:0|[1-9]\d*)(?:\.\d+)?(?:[eE][-+]?\d+)?`): the integer part is `0`
or starts with a nonzero digit (leading zeros are rejected), a fraction
needs at least one digit, an exponent needs at least one digit.  A number
with no fraction and no exponent is a Python `int`; any other is a
`float`, carried as its exact decimal value. -/
def parseNumBody (cs : List Char) : Option (Json × List Char) :=
  let (neg, cs1) :=
    match cs with
    | '-' :: rest => (true, rest)
    | _ => (false, cs)
  match takeDigits cs1 with
  | ([], _) => none
  | (ds, cs2) =>
    if decide (1 < ds.length) && ds.head? = some '0' then none
    else
      let fracRes : Option (List Char × List Char) :=
        match cs2 with
        | '.' :: cs3 =>
          match takeDigits cs3 with
          | ([], _) => none
          | (fs, cs4) => some (fs, cs4)
        | _ => some ([], cs2)
      match fracRes with
      | none => none
      | some (fs, cs5) =>
        let expRes : Option (Bool × List Char × List Char) :=
          match cs5 with
          | e :: cs6 =>
            if e = 'e' || e = 'E' then
              let (eneg, cs7) :=
                match cs6 with
                | '+' :: r => (false, r)
                | '-' :: r => (true, r)
                | _ => (false, cs6)
              match takeDigits cs7 with
              | ([], _) => none
              | (es, cs8) => some (eneg, es, cs8)
            else some (false, [], cs5)
          | [] => some (false, [], cs5)
        match expRes with
        | none => none
        | some (eneg, es, cs9) =>
          if fs.isEmpty && es.isEmpty then
            some (.num (if neg then -(digitsVal ds) else digitsVal ds), cs9)
          else
            let mant := if neg then -(digitsVal (ds ++ fs)) else digitsVal (ds ++ fs)
            let expv := if eneg then -(digitsVal es) else digitsVal es
            some (.fnum mant (expv - Int.ofNat fs.length), cs9)

/-- `d[k] = v` on a Python dict of JSON values: replace the value in place
when the key exists (a repeated JSON object key keeps its first position
with its last value, as in Python), else append. -/
def jsonObjInsert (fields : List (String × Json)) (k : String) (v : Json) :
    List (String × Json) :=
  if (fields.lookup k).isSome then
    fields.map (fun kv => if kv.1 = k then (k, v) else kv)
  else fields ++ [(k, v)]

mutual

/-- Fuel-bounded recursive-descent parser for one JSON value, modelling
Python's `json.loads`: the standard literals, strings, numbers (with the
int/float distinction and leading-zero rejection of `parseNumBody`),
arrays, objects, and the non-standard `Infinity`/`-Infinity`/`NaN`
constants Python accepts by default. -/
def parseVal : Nat → List Char → Option (Json × List Char)
  | 0, _ => none
  | fuel + 1, cs =>
    match skipWs cs with
    | [] => none
    | c :: rest =>
      if c = 'n' then
        match rest with
        | 'u' :: 'l' :: 'l' :: rest2 => some (.null, rest2)
        | _ => none
      else if c = 't' then
        match rest with
        | 'r' :: 'u' :: 'e' :: rest2 => some (.bool true, rest2)
        | _ => none
      else if c = 'f' then
        match rest with
        | 'a' :: 'l' :: 's' :: 'e' :: rest2 => some (.bool false, rest2)
        | _ => none
      else if c = 'N' then
        match rest with
        | 'a' :: 'N' :: rest2 => some (.nan, rest2)
        | _ => none
      else if c = 'I' then
        match rest with
        | 'n' :: 'f' :: 'i' :: 'n' :: 'i' :: 't' :: 'y' :: rest2 =>
          some (.inf false, rest2)
        | _ => none
      else if c = '"' then
        match parseStrBody rest with
        | some (s, rest2) => some (.str s, rest2)
        | none => none
      else if c = '[' then
        match skipWs rest with
        | ']' :: rest2 => some (.arr [], rest2)
        | rest2 => parseArrItems fuel rest2 []
      else if c = lbrace then
        match skipWs rest with
        | r :: rest2 => if r = rbrace then some (.obj [], rest2) else parseObjItems fuel (r :: rest2) []
        | [] => none
      else if c = '-' then
        match rest with
        | 'I' :: 'n' :: 'f' :: 'i' :: 'n' :: 'i' :: 't' :: 'y' :: rest2 =>
          some (.inf true, rest2)
        | _ => parseNumBody (c :: rest)
      else if c.isDigit then parseNumBody (c :: rest)
      else none

/-- Parse the items of a JSON array after the opening bracket (first item
not yet consumed). -/
def parseArrItems : Nat → List Char → List Json → Option (Json × List Char)
  | 0, _, _ => none
  | fuel + 1, cs, acc =>
    match parseVal fuel cs with
    | some (v, rest) =>
      match skipWs rest with
      | ',' :: rest2 => parseArrItems fuel rest2 (acc ++ [v])
      | ']' :: rest2 => some (.arr (acc ++ [v]), rest2)
      | _ => none
    | none => none

/-- Parse the members of a JSON object after the opening brace (first
member not yet consumed).  Members accumulate with Python-dict assignment
semantics: a repeated key keeps its first position and its last value. -/
def parseObjItems : Nat → List Char → List (String × Json) → Option (Json × List Char)
  | 0, _, _ => none
  | fuel + 1, cs, acc =>
    match skipWs cs with
    | c :: rest =>
      if c = '"' then
        match parseStrBody rest with
        | some (k, rest2) =>
          match skipWs rest2 with
          | ':' :: rest3 =>
            match parseVal fuel rest3 with
            | some (v, rest4) =>
              match skipWs rest4 with
              | ',' :: rest5 => parseObjItems fuel rest5 (jsonObjInsert acc k v)
              | r :: rest5 =>
                if r = rbrace then some (.obj (jsonObjInsert acc k v), rest5) else none
              | [] => none
            | none => none
          | _ => none
        | none => none
      else none
    | [] => none

end

/-- Python's `json.loads` on a string: parse one JSON value and require the
remainder to be whitespace. -/
def parseJson (s : String) : Option Json :=
  match parseVal (2 * s.length + 8) s.toList with
  | some (v, rest) => if (skipWs rest).isEmpty then some v else none
  | none => none

/-! ## The response classifier (`HTTPClient._handle_response`) -/

/-- The kind of `ESBError` subclass raised (the error taxonomy of
`esb_oms/exceptions.py`). -/
inductive FailKind where
  | authentication
  | authorization
  | validation
  | notFound
  | methodNotAllowed
  | rateLimit
  | serverError
  | connectionError
  | timeout
  | tokenRefresh
  | generic
deriving DecidableEq

/-- A raised `ESBError`, with the attributes the constructors set.  Python's
`None` is modelled as `Json.null` for the JSON-valued attributes and as
`Option.none` for `retry_after`. -/
structure Failure where
  kind : FailKind
  message : Json
  code : Json := Json.null
  statusCode : Option Nat := none
  responseData : Json := Json.null
  retryAfter : Option Int := none
  validationErrors : Json := Json.null

/-- The observable outcome of `_handle_response`: the returned payload, a
raised `ESBError`, or an uncaught built-in Python exception escaping the
method (e.g. `ValueError` from `int()`, `AttributeError` from calling a
string method on a non-string). -/
inductive PyOutcome where
  | success (payload : Json)
  | failure (f : Failure)
  | crash (exc : String)

/-- An HTTP response as the classifier sees it: status code, headers, the
result of `response.json()` (`none` when it raises `ValueError`), and the
raw body text. -/
structure PyResponse where
  statusCode : Nat
  headers : List (String × String)
  jsonBody : Option Json
  text : String

/-- Source line 218: `status = str(data.get("status", "")).lower()`. -/
def extractStatus (fields : List (String × Json)) : String :=
  strLower (pyStr ((fields.lookup "status").getD (Json.str "")))

/-- Source line 219: `code = data.get("code")`. -/
def extractCode (fields : List (String × Json)) : Json :=
  (fields.lookup "code").getD Json.null

/-- Source line 221:
`message = data.get("message") or data.get("error") or "Unknown error"`. -/
def extractMessage (fields : List (String × Json)) : Json :=
  pyOrJ ((fields.lookup "message").getD Json.null)
    (pyOrJ ((fields.lookup "error").getD Json.null) (Json.str "Unknown error"))

/-- Source line 281: `status in ("fail", "failed", "01")`. -/
def isFailStatus (s : String) : Bool :=
  s == "fail" || s == "failed" || s == "01"

/-- Source lines 225-227, abstracted over the extracted status string:
`status in ("ok", "00") or (status not in ("fail", "failed", "01") and
response.status_code < 400)`. -/
def successTestS (status : String) (sc : Nat) : Bool :=
  (status == "ok" || status == "00") || (!(isFailStatus status) && sc < 400)

/-- Source lines 225-227: the success test of the classifier. -/
def successTest (fields : List (String × Json)) (sc : Nat) : Bool :=
  successTestS (extractStatus fields) sc

/-- Source lines 300-320: handling of Backend API error code `EC0110`
inside the body-status-driven branch.  `json.loads(message)` on a
non-string raises `TypeError`, which the source catches; the subsequent
`message.lower()` on the non-string then raises an uncaught
`AttributeError`. -/
def ec0110Branch (sc : Nat) (fields : List (String × Json)) : PyOutcome :=
  match extractMessage fields with
  | Json.str m =>
    match parseJson m with
    | some (Json.obj o) =>
      .failure { kind := .validation, message := Json.str "Validation error",
                 code := extractCode fields, statusCode := some sc,
                 responseData := Json.obj fields, validationErrors := Json.obj o }
    | _ =>
      if strContains (strLower m) "not found" then
        .failure { kind := .notFound, message := Json.str m,
                   code := extractCode fields, statusCode := some sc,
                   responseData := Json.obj fields }
      else
        .failure { kind := .generic, message := Json.str m,
                   code := extractCode fields, statusCode := some sc,
                   responseData := Json.obj fields }
  | _ => .crash "AttributeError"

/-- Source lines 334-339: the V1 fall-through inside the body-status-driven
branch — the `"undefined index"` message heuristic, then the generic
`ESBError`.  `message.lower()` on a non-string raises `AttributeError`. -/
def failStatusFallthrough (sc : Nat) (fields : List (String × Json)) : PyOutcome :=
  match extractMessage fields with
  | Json.str m =>
    if strContains (strLower m) "undefined index" then
      .failure { kind := .validation, message := Json.str m,
                 code := extractCode fields, statusCode := some sc,
                 responseData := Json.obj fields }
    else
      .failure { kind := .generic, message := Json.str m,
                 code := extractCode fields, statusCode := some sc,
                 responseData := Json.obj fields }
  | _ => .crash "AttributeError"

/-- Source lines 278-339: the body-status-driven branch
(`if status in ("fail", "failed", "01")`), with the error-code dispatch of
lines 282-332.  The code block is entered only when `code` is truthy and a
string (line 283); an unmatched code falls through to the message
heuristics. -/
def failStatusBranch (sc : Nat) (fields : List (String × Json)) : PyOutcome :=
  match extractCode fields with
  | Json.str c =>
    if c == "" then failStatusFallthrough sc fields
    else if c == "EC03100001" || c == "EC03100032" then
      .failure { kind := .authentication, message := extractMessage fields,
                 code := extractCode fields, statusCode := some sc,
                 responseData := Json.obj fields }
    else if c == "EC03100003" then
      .failure { kind := .validation, message := extractMessage fields,
                 code := extractCode fields, statusCode := some sc,
                 responseData := Json.obj fields,
                 validationErrors := (fields.lookup "errors").getD Json.null }
    else if c == "EC011401" then
      .failure { kind := .authentication, message := extractMessage fields,
                 code := extractCode fields, statusCode := some sc,
                 responseData := Json.obj fields }
    else if c == "EC0110" then ec0110Branch sc fields
    else if c == "EC0118" then
      .failure { kind := .validation, message := extractMessage fields,
                 code := extractCode fields, statusCode := some sc,
                 responseData := Json.obj fields }
    else if c == "EC011400" then
      .failure { kind := .validation, message := extractMessage fields,
                 code := extractCode fields, statusCode := some sc,
                 responseData := Json.obj fields,
                 validationErrors := (fields.lookup "data").getD Json.null }
    else failStatusFallthrough sc fields
  | _ => failStatusFallthrough sc fields

/-- Source lines 230-342: the error path for an object-shaped body — the
HTTP-status-code-driven rules first (lines 237-276), then the
body-status-driven branch (line 281), then the final generic error
(line 342). -/
def objError (sc : Nat) (hdrs : List (String × String)) (fields : List (String × Json)) :
    PyOutcome :=
  if sc = 401 then
    .failure { kind := .authentication, message := extractMessage fields,
               code := extractCode fields, statusCode := some sc,
               responseData := Json.obj fields }
  else if sc = 403 then
    .failure { kind := .authorization, message := extractMessage fields,
               code := extractCode fields, statusCode := some sc,
               responseData := Json.obj fields }
  else if sc = 404 then
    .failure { kind := .notFound, message := extractMessage fields,
               code := extractCode fields, statusCode := some sc,
               responseData := Json.obj fields }
  else if sc = 405 then
    .failure { kind := .methodNotAllowed, message := extractMessage fields,
               code := extractCode fields, statusCode := some sc,
               responseData := Json.obj fields }
  else if sc = 429 then
    match headerGet hdrs "Retry-After" with
    | none =>
      .failure { kind := .rateLimit, message := extractMessage fields,
                 code := extractCode fields, statusCode := some sc,
                 responseData := Json.obj fields, retryAfter := none }
    | some ra =>
      if ra == "" then
        .failure { kind := .rateLimit, message := extractMessage fields,
                   code := extractCode fields, statusCode := some sc,
                   responseData := Json.obj fields, retryAfter := none }
      else
        match pyParseInt ra with
        | some n =>
          .failure { kind := .rateLimit, message := extractMessage fields,
                     code := extractCode fields, statusCode := some sc,
                     responseData := Json.obj fields, retryAfter := some n }
        | none => .crash "ValueError"
  else if sc = 400 || sc = 422 then
    .failure { kind := .validation, message := extractMessage fields,
               code := extractCode fields, statusCode := some sc,
               responseData := Json.obj fields,
               validationErrors :=
                 pyOrJ ((fields.lookup "data").getD Json.null)
                   ((fields.lookup "errors").getD Json.null) }
  else if sc ≥ 500 then
    .failure { kind := .serverError, message := extractMessage fields,
               code := extractCode fields, statusCode := some sc,
               responseData := Json.obj fields }
  else if isFailStatus (extractStatus fields) then
    failStatusBranch sc fields
  else
    .failure { kind := .generic, message := extractMessage fields,
               code := extractCode fields, statusCode := some sc,
               responseData := Json.obj fields }

/-- Source lines 196-213: a list-shaped body is returned directly when the
status code is below 400; otherwise a message is taken from the first
element's `message` field (defaulting to "Request failed") and the status
code alone selects the exception. -/
def listBranch (sc : Nat) (elems : List Json) : PyOutcome :=
  if sc ≥ 400 then
    let msg : Json :=
      match elems with
      | Json.obj d :: _ => (d.lookup "message").getD (Json.str "Request failed")
      | _ => Json.str "Request failed"
    if sc = 401 then .failure { kind := .authentication, message := msg, statusCode := some sc }
    else if sc = 403 then .failure { kind := .authorization, message := msg, statusCode := some sc }
    else if sc = 404 then .failure { kind := .notFound, message := msg, statusCode := some sc }
    else if sc ≥ 500 then .failure { kind := .serverError, message := msg, statusCode := some sc }
    else .failure { kind := .generic, message := msg, statusCode := some sc }
  else .success (Json.arr elems)

/-- `HTTPClient._handle_response` (source lines 170-342).  A body that is
valid JSON but neither a list nor an object (e.g. a bare number) reaches
`data.get(...)` and raises an uncaught `AttributeError`. -/
def handleResponse (r : PyResponse) : PyOutcome :=
  match r.jsonBody with
  | none =>
    if r.statusCode ≥ 500 then
      .failure { kind := .serverError, message := Json.str ("Server error: " ++ r.text),
                 statusCode := some r.statusCode }
    else
      .failure { kind := .generic, message := Json.str ("Invalid response: " ++ r.text),
                 statusCode := some r.statusCode }
  | some (Json.arr elems) => listBranch r.statusCode elems
  | some (Json.obj fields) =>
    if successTest fields r.statusCode then .success (Json.obj fields)
    else objError r.statusCode r.headers fields
  | some _ => .crash "AttributeError"

/-- The kind of a failure outcome, if the outcome is a raised `ESBError`. -/
def outcomeKind : PyOutcome → Option FailKind
  | .failure f => some f.kind
  | _ => none

/-- The message of a failure outcome. -/
def outcomeMessage : PyOutcome → Option Json
  | .failure f => some f.message
  | _ => none

/-! ## Request-header preparation (`HTTPClient.request`, line 139, and
`BearerHTTPClient._prepare_auth`, lines 423-432) -/

/-- `d[k] = v` on a Python dict modelled as an association list: replace
the value in place if the key exists, else append. -/
def dictInsert (d : List (String × String)) (k v : String) : List (String × String) :=
  if (d.lookup k).isSome then d.map (fun kv => if kv.1 = k then (k, v) else kv)
  else d ++ [(k, v)]

/-- Python's `\x7b**a, **b\x7d` dict merge: start from `a`, then write each
entry of `b` over it in order (a key present in both ends up with `b`'s
value). -/
def dictMerge (a b : List (String × String)) : List (String × String) :=
  b.foldl (fun acc kv => dictInsert acc kv.1 kv.2) a

/-- Source line 139:
`request_headers = \x7b**auth_headers, **(headers or \x7b\x7d)\x7d`. -/
def requestHeaders (authHeaders callerHeaders : List (String × String)) :
    List (String × String) :=
  dictMerge authHeaders callerHeaders

/-- `BearerHTTPClient._prepare_auth` (lines 423-432): the `Authorization`
header when the token callback yields a truthy token, else no headers. -/
def prepareAuthBearer (token : Option String) : List (String × String) :=
  match token with
  | some t => if t == "" then [] else [("Authorization", "Bearer " ++ t)]
  | none => []

/-! ## Session manager (`BaseClient`, `esb_oms/_base.py`) -/

/-- `TokenInfo` (`esb_oms/models/auth.py`): the session state. -/
structure TokenInfo where
  accessToken : String
  refreshToken : String
  username : Option String := none
  companyCode : Option String := none

/-- `LoginResult` (`esb_oms/models/auth.py`), restricted to its scalar
fields; the nested `log_info` record is not consumed by the session
manager. -/
structure LoginResult where
  username : String
  fullName : String
  companyId : Int
  companyCode : String
  companyName : String
  accessToken : String
  refreshToken : String
  flagActive : Int

/-- `RefreshResult` (`esb_oms/models/auth.py`), restricted likewise. -/
structure RefreshResult where
  username : String
  fullName : String
  companyId : Int
  companyCode : String
  companyName : String
  accessToken : String
  refreshToken : String
  flagActive : Int

/-- The observable result of a call into the Auth API collaborator: a
result value, a raised `ESBError`, or another raised exception
(e.g. `TypeError` on a list-shaped auth response). -/
inductive CallResult (α : Type) where
  | ok (a : α)
  | esbErr (f : Failure)
  | otherErr (exc : String)

/-- Whether a raised failure is an `ESBAuthenticationError` (or one of its
subclasses), i.e. matches `except ESBAuthenticationError`. -/
def isAuthKind : FailKind → Bool
  | .authentication => true
  | .tokenRefresh => true
  | _ => false

/-- An error escaping a `BaseClient` method: a local `ValueError`, a raised
`ESBError`, or another propagated exception. -/
inductive SessionError where
  | valueError (msg : String)
  | esb (f : Failure)
  | other (exc : String)

/-- Python truthiness of an optional string (`str | None`). -/
def optStrTruthy : Option String → Bool
  | some s => s != ""
  | none => false

/-- `BaseClient.refresh_token` (lines 193-223).  The collaborator
`self._auth.refresh(...)` is passed in as a function from the refresh token
to its observable outcome.  Returns the session state after the call and
the error escaping the method, if any. -/
def refreshTokenOp (tokenInfo : Option TokenInfo)
    (authRefresh : String → CallResult RefreshResult) :
    Option TokenInfo × Option SessionError :=
  match tokenInfo with
  | none => (none, some (.valueError "Cannot refresh: no refresh token available"))
  | some ti =>
    if ti.refreshToken == "" then
      (some ti, some (.valueError "Cannot refresh: no refresh token available"))
    else
      match authRefresh ti.refreshToken with
      | .ok result =>
        (some { accessToken := result.accessToken, refreshToken := result.refreshToken,
                username := some result.username, companyCode := some result.companyCode },
         none)
      | .esbErr f =>
        if isAuthKind f.kind then
          (some ti,
           some (.esb { kind := .tokenRefresh, message := Json.str "Failed to refresh token",
                        code := f.code, statusCode := f.statusCode,
                        responseData := f.responseData }))
        else (some ti, some (.esb f))
      | .otherErr exc => (some ti, some (.other exc))

/-- `BaseClient.login` (lines 165-191).  Returns the session state after
the call, whether a network call was issued, and the escaping error, if
any. -/
def loginOp (username password : Option String) (tokenInfo : Option TokenInfo)
    (authLogin : CallResult LoginResult) :
    Option TokenInfo × Bool × Option SessionError :=
  if !optStrTruthy username || !optStrTruthy password then
    (tokenInfo, false, some (.valueError "Cannot login: no credentials provided"))
  else
    match authLogin with
    | .ok result =>
      (some { accessToken := result.accessToken, refreshToken := result.refreshToken,
              username := some result.username, companyCode := some result.companyCode },
       true, none)
    | .esbErr f => (tokenInfo, true, some (.esb f))
    | .otherErr exc => (tokenInfo, true, some (.other exc))

/-- The observable effects of one `ensure_authenticated` call. -/
structure EnsureOutcome where
  tokenInfo : Option TokenInfo
  loginInvoked : Bool
  networkCalled : Bool
  error : Option SessionError

/-- `BaseClient.ensure_authenticated` (lines 225-238): return immediately
when the configured static token is truthy; otherwise call `self.login()`
when no session state exists. -/
def ensureAuthenticated (staticToken username password : Option String)
    (tokenInfo : Option TokenInfo) (authLogin : CallResult LoginResult) : EnsureOutcome :=
  if optStrTruthy staticToken then
    { tokenInfo := tokenInfo, loginInvoked := false, networkCalled := false, error := none }
  else
    match tokenInfo with
    | none =>
      match loginOp username password tokenInfo authLogin with
      | (st, net, err) =>
        { tokenInfo := st, loginInvoked := true, networkCalled := net, error := err }
    | some ti =>
      { tokenInfo := some ti, loginInvoked := false, networkCalled := false, error := none }

/-! ## Specification-side decision functions

These restate the spec's §4.3 decision table as functions of the inputs the
spec names, to be compared with the classifier embedded above. -/

/-- The failure kind the spec's HTTP-status-code-driven rules (§4.3 step 4)
assign to a status code, `none` when no status-code rule matches. -/
def ruleKind (sc : Nat) : Option FailKind :=
  if sc = 401 then some .authentication
  else if sc = 403 then some .authorization
  else if sc = 404 then some .notFound
  else if sc = 405 then some .methodNotAllowed
  else if sc = 429 then some .rateLimit
  else if sc = 400 || sc = 422 then some .validation
  else if sc ≥ 500 then some .serverError
  else none

/-- The failure kind of the body-status-driven fall-through (spec §4.3
steps 5g-5h) as a function of the extracted message; `none` on the paths
where the source crashes on a non-string message. -/
def fallKind : Json → Option FailKind
  | Json.str m =>
    if strContains (strLower m) "undefined index" then some .validation else some .generic
  | _ => none

/-- The failure kind of the `EC0110` dispatch (spec §4.3 step 5d) as a
function of the extracted message; `none` on the crash path. -/
def ec0110Kind : Json → Option FailKind
  | Json.str m =>
    match parseJson m with
    | some (Json.obj _) => some .validation
    | _ =>
      if strContains (strLower m) "not found" then some .notFound
      else some .generic
  | _ => none

/-- The failure kind of the body-status-driven branch (spec §4.3 step 5) as
a function of the `code` field and the extracted message. -/
def failStatusKind (code message : Json) : Option FailKind :=
  match code with
  | Json.str c =>
    if c == "" then fallKind message
    else if c == "EC03100001" || c == "EC03100032" then some .authentication
    else if c == "EC03100003" then some .validation
    else if c == "EC011401" then some .authentication
    else if c == "EC0110" then ec0110Kind message
    else if c == "EC0118" then some .validation
    else if c == "EC011400" then some .validation
    else fallKind message
  | _ => fallKind message

/-- The failure kind assigned to an object-shaped body as a function of
(status code, extracted status, `code` field, extracted message) alone:
the determinism function the amended claim C7 asserts.  `none` marks the
success outcome and the paths where the source raises a non-`ESBError`
exception instead of a classified failure. -/
def objKindSpec (sc : Nat) (status : String) (code : Json) (message : Json) :
    Option FailKind :=
  if successTestS status sc then none
  else if sc = 401 then some .authentication
  else if sc = 403 then some .authorization
  else if sc = 404 then some .notFound
  else if sc = 405 then some .methodNotAllowed
  else if sc = 429 then some .rateLimit
  else if sc = 400 || sc = 422 then some .validation
  else if sc ≥ 500 then some .serverError
  else if isFailStatus status then failStatusKind code message
  else some .generic

/-- The failure kind assigned to a list-shaped body as a function of the
status code alone (spec §4.3 step 1); `none` below 400 (success). -/
def listKindSpec (sc : Nat) : Option FailKind :=
  if sc ≥ 400 then
    if sc = 401 then some .authentication
    else if sc = 403 then some .authorization
    else if sc = 404 then some .notFound
    else if sc ≥ 500 then some .serverError
    else some .generic
  else none

/-- Whether a parse result is a JSON object (Python's
`isinstance(parsed, dict)` applied to a successful `json.loads`). -/
def isObjParse : Option Json → Bool
  | some (Json.obj _) => true
  | _ => false

/-! ## Helper lemmas -/

theorem fallthrough_kind {sc : Nat} {fields : List (String × Json)} {f : Failure}
    (h : failStatusFallthrough sc fields = .failure f) :
    fallKind (extractMessage fields) = some f.kind := by
  cases hm : extractMessage fields
  case str m =>
    simp only [failStatusFallthrough, hm] at h
    simp only [fallKind]
    by_cases hs : strContains (strLower m) "undefined index" = true
    · rw [if_pos hs] at h ⊢; cases h; rfl
    · rw [if_neg hs] at h ⊢; cases h; rfl
  all_goals (simp only [failStatusFallthrough, hm] at h; exact PyOutcome.noConfusion h)

theorem ec0110_kind {sc : Nat} {fields : List (String × Json)} {f : Failure}
    (h : ec0110Branch sc fields = .failure f) :
    ec0110Kind (extractMessage fields) = some f.kind := by
  cases hm : extractMessage fields
  case str m =>
    simp only [ec0110Branch, hm] at h
    simp only [ec0110Kind]
    cases hp : parseJson m
    case none =>
      simp only [hp] at h ⊢
      by_cases hs : strContains (strLower m) "not found" = true
      · rw [if_pos hs] at h ⊢; cases h; rfl
      · rw [if_neg hs] at h ⊢; cases h; rfl
    case some v =>
      cases v <;> simp only [hp] at h ⊢
      case obj o => cases h; rfl
      all_goals
        (by_cases hs : strContains (strLower m) "not found" = true
         · rw [if_pos hs] at h ⊢; cases h; rfl
         · rw [if_neg hs] at h ⊢; cases h; rfl)
  all_goals (simp only [ec0110Branch, hm] at h; exact PyOutcome.noConfusion h)


theorem failStatusBranch_kind {sc : Nat} {fields : List (String × Json)} {f : Failure}
    (h : failStatusBranch sc fields = .failure f) :
    failStatusKind (extractCode fields) (extractMessage fields) = some f.kind := by
  cases hc : extractCode fields
  case str c =>
    simp only [failStatusBranch, hc] at h
    simp only [failStatusKind, hc]
    by_cases h0 : (c == "") = true
    · rw [if_pos h0] at h ⊢; exact fallthrough_kind h
    · rw [if_neg h0] at h ⊢
      by_cases h1 : (c == "EC03100001" || c == "EC03100032") = true
      · rw [if_pos h1] at h ⊢; cases h; rfl
      · rw [if_neg h1] at h ⊢
        by_cases h2 : (c == "EC03100003") = true
        · rw [if_pos h2] at h ⊢; cases h; rfl
        · rw [if_neg h2] at h ⊢
          by_cases h3 : (c == "EC011401") = true
          · rw [if_pos h3] at h ⊢; cases h; rfl
          · rw [if_neg h3] at h ⊢
            by_cases h4 : (c == "EC0110") = true
            · rw [if_pos h4] at h ⊢; exact ec0110_kind h
            · rw [if_neg h4] at h ⊢
              by_cases h5 : (c == "EC0118") = true
              · rw [if_pos h5] at h ⊢; cases h; rfl
              · rw [if_neg h5] at h ⊢
                by_cases h6 : (c == "EC011400") = true
                · rw [if_pos h6] at h ⊢; cases h; rfl
                · rw [if_neg h6] at h ⊢; exact fallthrough_kind h
  all_goals
    (simp only [failStatusBranch, hc] at h
     simp only [failStatusKind, hc]
     exact fallthrough_kind h)

theorem objError_kind {sc : Nat} {hdrs : List (String × String)}
    {fields : List (String × Json)} {f : Failure}
    (hns : successTestS (extractStatus fields) sc = false)
    (h : objError sc hdrs fields = .failure f) :
    objKindSpec sc (extractStatus fields) (extractCode fields) (extractMessage fields)
      = some f.kind := by
  unfold objKindSpec
  rw [hns]
  simp only [Bool.false_eq_true, if_false]
  unfold objError at h
  by_cases h401 : sc = 401
  · rw [if_pos h401] at h ⊢; cases h; rfl
  · rw [if_neg h401] at h ⊢
    by_cases h403 : sc = 403
    · rw [if_pos h403] at h ⊢; cases h; rfl
    · rw [if_neg h403] at h ⊢
      by_cases h404 : sc = 404
      · rw [if_pos h404] at h ⊢; cases h; rfl
      · rw [if_neg h404] at h ⊢
        by_cases h405 : sc = 405
        · rw [if_pos h405] at h ⊢; cases h; rfl
        · rw [if_neg h405] at h ⊢
          by_cases h429 : sc = 429
          · rw [if_pos h429] at h ⊢
            rcases hra : headerGet hdrs "Retry-After" with _ | ra
            · simp only [hra] at h; cases h; rfl
            · simp only [hra] at h
              by_cases hre : (ra == "") = true
              · rw [if_pos hre] at h; cases h; rfl
              · rw [if_neg hre] at h
                rcases hpi : pyParseInt ra with _ | n
                · simp only [hpi] at h; exact PyOutcome.noConfusion h
                · simp only [hpi] at h; cases h; rfl
          · rw [if_neg h429] at h ⊢
            by_cases h4x : (decide (sc = 400) || decide (sc = 422)) = true
            · rw [if_pos h4x] at h ⊢; cases h; rfl
            · rw [if_neg h4x] at h ⊢
              by_cases h500 : sc ≥ 500
              · rw [if_pos h500] at h ⊢; cases h; rfl
              · rw [if_neg h500] at h ⊢
                by_cases hf : isFailStatus (extractStatus fields) = true
                · rw [if_pos hf] at h ⊢; exact failStatusBranch_kind h
                · rw [if_neg hf] at h ⊢; cases h; rfl

theorem handleResponse_obj_kind {sc : Nat} {hdrs : List (String × String)}
    {fields : List (String × Json)} {text : String} {f : Failure}
    (h : handleResponse ⟨sc, hdrs, some (.obj fields), text⟩ = .failure f) :
    objKindSpec sc (extractStatus fields) (extractCode fields) (extractMessage fields)
      = some f.kind := by
  simp only [handleResponse] at h
  by_cases hs : successTest fields sc = true
  · rw [if_pos hs] at h; exact PyOutcome.noConfusion h
  · rw [if_neg hs] at h
    have hns : successTestS (extractStatus fields) sc = false := by
      revert hs; unfold successTest; cases successTestS (extractStatus fields) sc <;> simp
    exact objError_kind hns h

theorem fallthrough_ne_success {sc : Nat} {fields : List (String × Json)} {p : Json} :
    failStatusFallthrough sc fields ≠ PyOutcome.success p := by
  cases hm : extractMessage fields <;> simp only [failStatusFallthrough, hm] <;>
    (try split_ifs) <;> simp

theorem ec0110_ne_success {sc : Nat} {fields : List (String × Json)} {p : Json} :
    ec0110Branch sc fields ≠ PyOutcome.success p := by
  cases hm : extractMessage fields <;> simp only [ec0110Branch, hm] <;> try simp
  case str m =>
    cases hp : parseJson m
    · simp only [hp]; split_ifs <;> simp
    · case some v =>
        cases v <;> simp only [hp] <;> (try split_ifs) <;> simp

theorem failStatusBranch_ne_success {sc : Nat} {fields : List (String × Json)} {p : Json} :
    failStatusBranch sc fields ≠ PyOutcome.success p := by
  cases hc : extractCode fields <;> simp only [failStatusBranch, hc] <;>
    try exact fallthrough_ne_success
  case str c =>
    split_ifs <;>
      solve
        | simp
        | exact fallthrough_ne_success
        | exact ec0110_ne_success

theorem objError_ne_success {sc : Nat} {hdrs : List (String × String)}
    {fields : List (String × Json)} {p : Json} :
    objError sc hdrs fields ≠ PyOutcome.success p := by
  unfold objError
  repeat' split
  all_goals solve
    | simp
    | exact failStatusBranch_ne_success

theorem successTest_iff {fields : List (String × Json)} {sc : Nat} :
    successTest fields sc = true ↔
      (extractStatus fields = "ok" ∨ extractStatus fields = "00" ∨
        (¬(extractStatus fields = "fail" ∨ extractStatus fields = "failed" ∨
            extractStatus fields = "01") ∧ sc < 400)) := by
  simp [successTest, successTestS, isFailStatus, not_or, or_assoc, and_assoc]


/-- C1: for every object-shaped body, the classifier succeeds and returns
the object exactly when the lower-cased `status` field (empty string if
absent) is "ok" or "00", or it is none of "fail"/"failed"/"01" and the
HTTP status code is below 400; in particular a body with status "ok"/"00"
is classified as success for every HTTP status code, including ≥ 400. -/
theorem c1_success_exactly (sc : Nat) (hdrs : List (String × String)) (text : String)
    (fields : List (String × Json)) (p : Json) :
    (handleResponse ⟨sc, hdrs, some (.obj fields), text⟩ = .success p ↔
      (p = Json.obj fields ∧
        (extractStatus fields = "ok" ∨ extractStatus fields = "00" ∨
          (¬(extractStatus fields = "fail" ∨ extractStatus fields = "failed" ∨
              extractStatus fields = "01") ∧ sc < 400))))
  ∧ ((extractStatus fields = "ok" ∨ extractStatus fields = "00") →
      handleResponse ⟨sc, hdrs, some (.obj fields), text⟩ = .success (Json.obj fields)) := by
  constructor
  · simp only [handleResponse]
    by_cases hs : successTest fields sc = true
    · rw [if_pos hs]
      constructor
      · intro h
        cases h
        exact ⟨rfl, successTest_iff.mp hs⟩
      · rintro ⟨hp, _⟩; rw [hp]
    · rw [if_neg hs]
      constructor
      · intro h; exact absurd h objError_ne_success
      · rintro ⟨hp, hcond⟩; exact absurd (successTest_iff.mpr hcond) hs
  · intro hok
    simp only [handleResponse]
    rw [if_pos (successTest_iff.mpr (by tauto))]

/-- Witness for C1 at a concrete input: status "ok" with HTTP 503 is
still classified as success. -/
theorem c1_success_exactly_witness :
    (extractStatus [("status", Json.str "ok")] = "ok" ∨
      extractStatus [("status", Json.str "ok")] = "00") ∧
    handleResponse ⟨503, [], some (.obj [("status", Json.str "ok")]), ""⟩ =
      .success (.obj [("status", Json.str "ok")]) :=
  ⟨Or.inl rfl,
    (c1_success_exactly 503 [] "" [("status", Json.str "ok")]
      (.obj [("status", Json.str "ok")])).2 (Or.inl rfl)⟩

theorem failStatus_not_ok {s : String} (h : isFailStatus s = true) :
    (s == "ok" || s == "00") = false := by
  simp only [isFailStatus, Bool.or_eq_true, beq_iff_eq] at h
  rcases h with (h | h) | h <;> subst h <;> rfl

theorem ruleKind_objKindSpec {sc : Nat} {k kk : FailKind} {st : String} {cd msg : Json}
    (hk : ruleKind sc = some k) (ho : objKindSpec sc st cd msg = some kk) : kk = k := by
  unfold objKindSpec at ho
  by_cases hs : successTestS st sc = true
  · rw [if_pos hs] at ho; exact absurd ho (by simp)
  · rw [if_neg hs] at ho
    unfold ruleKind at hk
    by_cases h1 : sc = 401
    · rw [if_pos h1] at hk ho; cases hk; cases ho; rfl
    · rw [if_neg h1] at hk ho
      by_cases h2 : sc = 403
      · rw [if_pos h2] at hk ho; cases hk; cases ho; rfl
      · rw [if_neg h2] at hk ho
        by_cases h3 : sc = 404
        · rw [if_pos h3] at hk ho; cases hk; cases ho; rfl
        · rw [if_neg h3] at hk ho
          by_cases h4 : sc = 405
          · rw [if_pos h4] at hk ho; cases hk; cases ho; rfl
          · rw [if_neg h4] at hk ho
            by_cases h5 : sc = 429
            · rw [if_pos h5] at hk ho; cases hk; cases ho; rfl
            · rw [if_neg h5] at hk ho
              by_cases h6 : (decide (sc = 400) || decide (sc = 422)) = true
              · rw [if_pos h6] at hk ho; cases hk; cases ho; rfl
              · rw [if_neg h6] at hk ho
                by_cases h7 : sc ≥ 500
                · rw [if_pos h7] at hk ho; cases hk; cases ho; rfl
                · rw [if_neg h7] at hk
                  exact Option.noConfusion hk

theorem handleResponse_ec_reach {sc : Nat} {hdrs : List (String × String)} {text : String}
    {fields : List (String × Json)}
    (hr : ruleKind sc = none) (hf : isFailStatus (extractStatus fields) = true) :
    handleResponse ⟨sc, hdrs, some (.obj fields), text⟩ = failStatusBranch sc fields := by
  have hns : successTest fields sc = false := by
    unfold successTest successTestS
    rw [hf, failStatus_not_ok hf]
    rfl
  have h401 : sc ≠ 401 := by intro h; subst h; simp [ruleKind] at hr
  have h403 : sc ≠ 403 := by intro h; subst h; simp [ruleKind] at hr
  have h404 : sc ≠ 404 := by intro h; subst h; simp [ruleKind] at hr
  have h405 : sc ≠ 405 := by intro h; subst h; simp [ruleKind] at hr
  have h429 : sc ≠ 429 := by intro h; subst h; simp [ruleKind] at hr
  have h4x : ¬((decide (sc = 400) || decide (sc = 422)) = true) := by
    intro h
    simp only [Bool.or_eq_true, decide_eq_true_eq] at h
    rcases h with h | h <;> subst h <;> simp [ruleKind] at hr
  have h500 : ¬(sc ≥ 500) := by
    intro h
    have hsrv : ruleKind sc = some .serverError := by
      unfold ruleKind
      rw [if_neg (by omega), if_neg (by omega), if_neg (by omega), if_neg (by omega),
        if_neg (by omega), if_neg h4x, if_pos h]
    rw [hsrv] at hr
    exact Option.noConfusion hr
  simp only [handleResponse, hns, Bool.false_eq_true, if_false]
  unfold objError
  rw [if_neg h401, if_neg h403, if_neg h404, if_neg h405, if_neg h429, if_neg h4x,
    if_neg h500, if_pos hf]


/-- C2 counterexample: the EC-code tables are consulted at HTTP status 402
(≥ 400): a fail-status body with code "EC0118" is classified Validation
(reachable only through the EC table), while the same body without the
code field is classified Generic — contradicting the claim that the
EC-code tables are consulted only when the HTTP status is below 400. -/
theorem c2_counterexample :
    400 ≤ 402 ∧
    outcomeKind (handleResponse ⟨402, [],
      some (.obj [("status", Json.str "fail"), ("code", Json.str "EC0118"),
                  ("message", Json.str "m")]), ""⟩) = some FailKind.validation ∧
    outcomeKind (handleResponse ⟨402, [],
      some (.obj [("status", Json.str "fail"), ("message", Json.str "m")]), ""⟩) =
      some FailKind.generic :=
  ⟨by omega, rfl, rfl⟩

/-- C2 (amended): the HTTP-status-code rules (401→Authentication,
403→Authorization, 404→NotFound, 405→MethodNotAllowed, 429→RateLimit,
400/422→Validation, ≥500→ServerError) are applied before any
body-declared status/code rule and fix the failure kind whenever one
matches; the 401 scenario yields an Authentication failure carrying the
body's message and code; and the EC-code tables are consulted exactly when
no status-code rule matches (HTTP status below 500 and not one of
400/401/403/404/405/422/429) and the body declares failure — not only
when the HTTP status is below 400. -/
theorem c2_status_rule_precedence :
    (∀ (sc : Nat) (hdrs : List (String × String)) (text : String)
       (fields : List (String × Json)) (f : Failure) (k : FailKind),
        ruleKind sc = some k →
        handleResponse ⟨sc, hdrs, some (.obj fields), text⟩ = .failure f →
        f.kind = k)
  ∧ handleResponse ⟨401, [],
      some (.obj [("status", Json.str "fail"), ("code", Json.str "EC03100032"),
                  ("message", Json.str "Invalid username or password")]), ""⟩ =
      .failure { kind := .authentication,
                 message := Json.str "Invalid username or password",
                 code := Json.str "EC03100032", statusCode := some 401,
                 responseData := Json.obj [("status", Json.str "fail"),
                   ("code", Json.str "EC03100032"),
                   ("message", Json.str "Invalid username or password")] }
  ∧ (∀ (sc : Nat) (hdrs : List (String × String)) (text : String)
       (fields : List (String × Json)),
        ruleKind sc = none →
        isFailStatus (extractStatus fields) = true →
        handleResponse ⟨sc, hdrs, some (.obj fields), text⟩ = failStatusBranch sc fields) := by
  refine ⟨?_, rfl, ?_⟩
  · intro sc hdrs text fields f k hk h
    exact ruleKind_objKindSpec hk (handleResponse_obj_kind h)
  · intro sc hdrs text fields hr hf
    exact handleResponse_ec_reach hr hf

/-- Witness for C2 at concrete inputs: HTTP 403 fixes the kind to
Authorization even with a fail-status EC-coded body, and at HTTP 402 the
classifier runs the body-status (EC-code) branch. -/
theorem c2_status_rule_precedence_witness :
    ruleKind 403 = some FailKind.authorization ∧
    ({ kind := FailKind.authorization, message := Json.str "Unknown error",
       code := Json.str "EC0118", statusCode := some 403,
       responseData := Json.obj [("status", Json.str "fail"), ("code", Json.str "EC0118")] }
      : Failure).kind = FailKind.authorization ∧
    handleResponse ⟨402, [],
      some (.obj [("status", Json.str "fail"), ("code", Json.str "EC0118")]), ""⟩ =
      failStatusBranch 402 [("status", Json.str "fail"), ("code", Json.str "EC0118")] :=
  ⟨rfl,
   c2_status_rule_precedence.1 403 [] ""
     [("status", Json.str "fail"), ("code", Json.str "EC0118")] _ _ rfl rfl,
   c2_status_rule_precedence.2.2 402 [] ""
     [("status", Json.str "fail"), ("code", Json.str "EC0118")] rfl rfl⟩

theorem ruleKind_lt_400 {sc : Nat} (h : sc < 400) : ruleKind sc = none := by
  unfold ruleKind
  rw [if_neg (by omega), if_neg (by omega), if_neg (by omega), if_neg (by omega),
    if_neg (by omega), if_neg ?_, if_neg (by omega)]
  simp only [Bool.or_eq_true, decide_eq_true_eq, not_or]
  omega

/-- C3 counterexample: a failing body with declared failure status, code
"EC0110" and a message that parses as a JSON object is classified NotFound
(not Validation) when the HTTP status is 404 — the status-code rules
preempt the EC0110 dispatch, so the claim fails as stated for statuses
matched by a status-code rule. -/
theorem c3_counterexample :
    parseJson "\x7b\"a\": \"b\"\x7d" = some (Json.obj [("a", Json.str "b")]) ∧
    outcomeKind (handleResponse ⟨404, [],
      some (.obj [("status", Json.str "fail"), ("code", Json.str "EC0110"),
                  ("message", Json.str "\x7b\"a\": \"b\"\x7d")]), ""⟩) =
      some FailKind.notFound :=
  ⟨rfl, rfl⟩

/-- C3 (amended): for every failing object body with declared failure
status, string code "EC0110", and HTTP status below 400 (so that no
status-code rule preempts the dispatch): if the message parses as JSON to
an object, the classifier yields a Validation failure whose detail is the
parsed object and whose message is replaced by "Validation error"; else if
the message contains "not found" case-insensitively it yields NotFound;
otherwise a Generic failure. -/
theorem c3_ec0110 (sc : Nat) (hdrs : List (String × String)) (text : String)
    (fields : List (String × Json)) (m : String)
    (hsc : sc < 400)
    (hf : isFailStatus (extractStatus fields) = true)
    (hcode : extractCode fields = Json.str "EC0110")
    (hm : extractMessage fields = Json.str m) :
    (∀ o, parseJson m = some (Json.obj o) →
        handleResponse ⟨sc, hdrs, some (.obj fields), text⟩ =
          .failure { kind := .validation, message := Json.str "Validation error",
                     code := Json.str "EC0110", statusCode := some sc,
                     responseData := Json.obj fields, validationErrors := Json.obj o })
  ∧ (isObjParse (parseJson m) = false → strContains (strLower m) "not found" = true →
        handleResponse ⟨sc, hdrs, some (.obj fields), text⟩ =
          .failure { kind := .notFound, message := Json.str m,
                     code := Json.str "EC0110", statusCode := some sc,
                     responseData := Json.obj fields })
  ∧ (isObjParse (parseJson m) = false → strContains (strLower m) "not found" = false →
        handleResponse ⟨sc, hdrs, some (.obj fields), text⟩ =
          .failure { kind := .generic, message := Json.str m,
                     code := Json.str "EC0110", statusCode := some sc,
                     responseData := Json.obj fields }) := by
  have hreach : handleResponse ⟨sc, hdrs, some (.obj fields), text⟩ =
      failStatusBranch sc fields :=
    handleResponse_ec_reach (ruleKind_lt_400 hsc) hf
  have hbranch : failStatusBranch sc fields = ec0110Branch sc fields := by
    simp only [failStatusBranch, hcode]
    rw [if_neg (by decide), if_neg (by decide), if_neg (by decide), if_neg (by decide),
      if_pos (by decide)]
  refine ⟨?_, ?_, ?_⟩
  · intro o hp
    rw [hreach, hbranch]
    simp only [ec0110Branch, hm, hp]
    rw [hcode]
  · intro hnp hcont
    rw [hreach, hbranch]
    simp only [ec0110Branch, hm]
    cases hp : parseJson m
    · simp only [hp]
      rw [if_pos hcont, hcode]
    · case some v =>
        cases v <;> simp only [hp] <;> first
          | (rw [if_pos hcont, hcode])
          | (rw [hp] at hnp; exact absurd hnp (by simp [isObjParse]))
  · intro hnp hcont
    rw [hreach, hbranch]
    simp only [ec0110Branch, hm]
    cases hp : parseJson m
    · simp only [hp]
      rw [if_neg (by simp [hcont]), hcode]
    · case some v =>
        cases v <;> simp only [hp] <;> first
          | (rw [if_neg (by simp [hcont]), hcode])
          | (rw [hp] at hnp; exact absurd hnp (by simp [isObjParse]))

/-- Witness for C3 at a concrete input: HTTP 200, fail status, code
"EC0110", message a JSON-encoded object whose value mentions "not found" —
classified Validation with the parsed object as detail. -/
theorem c3_ec0110_witness :
    ((200 : Nat) < 400 ∧
      isFailStatus (extractStatus [("status", Json.str "failed"),
        ("code", Json.str "EC0110"),
        ("message", Json.str "\x7b\"a\": \"not found\"\x7d")]) = true ∧
      extractCode [("status", Json.str "failed"), ("code", Json.str "EC0110"),
        ("message", Json.str "\x7b\"a\": \"not found\"\x7d")] = Json.str "EC0110" ∧
      extractMessage [("status", Json.str "failed"), ("code", Json.str "EC0110"),
        ("message", Json.str "\x7b\"a\": \"not found\"\x7d")] =
          Json.str "\x7b\"a\": \"not found\"\x7d") ∧
    handleResponse ⟨200, [], some (.obj [("status", Json.str "failed"),
        ("code", Json.str "EC0110"),
        ("message", Json.str "\x7b\"a\": \"not found\"\x7d")]), ""⟩ =
      .failure { kind := .validation, message := Json.str "Validation error",
                 code := Json.str "EC0110", statusCode := some 200,
                 responseData := Json.obj [("status", Json.str "failed"),
                   ("code", Json.str "EC0110"),
                   ("message", Json.str "\x7b\"a\": \"not found\"\x7d")],
                 validationErrors := Json.obj [("a", Json.str "not found")] } :=
  ⟨⟨by omega, rfl, rfl, rfl⟩,
    (c3_ec0110 200 [] ""
      [("status", Json.str "failed"), ("code", Json.str "EC0110"),
       ("message", Json.str "\x7b\"a\": \"not found\"\x7d")]
      "\x7b\"a\": \"not found\"\x7d" (by omega) rfl rfl rfl).1
      [("a", Json.str "not found")] rfl⟩

theorem lookup_append (l1 l2 : List (String × String)) (k : String) :
    (l1 ++ l2).lookup k =
      match l1.lookup k with
      | some v => some v
      | none => l2.lookup k := by
  induction l1 with
  | nil => rfl
  | cons hd tl ih =>
    obtain ⟨a, b⟩ := hd
    by_cases hak : k = a
    · subst hak
      simp [List.lookup]
    · simp [List.lookup, beq_false_of_ne hak, ih]

theorem lookup_replace (d : List (String × String)) (k v k' : String) :
    (d.map (fun kv => if kv.1 = k then (k, v) else kv)).lookup k' =
      if k' = k then (if (d.lookup k).isSome then some v else none)
      else d.lookup k' := by
  induction d with
  | nil => simp [List.lookup]
  | cons hd tl ih =>
    obtain ⟨a, b⟩ := hd
    rw [List.map_cons]
    simp only [show ((a, b).1 : String) = a from rfl]
    by_cases hak : a = k
    · rw [if_pos hak]
      by_cases hk'k : k' = k
      · subst hk'k
        subst hak
        rw [show List.lookup a ((a, v) :: List.map (fun kv => if kv.1 = a then (a, v) else kv) tl) = some v from by simp [List.lookup]]
        rw [if_pos rfl]
        rw [show List.lookup a ((a, b) :: tl) = some b from by simp [List.lookup]]
        rfl
      · subst hak
        rw [show List.lookup k' ((a, v) :: List.map (fun kv => if kv.1 = a then (a, v) else kv) tl) = List.lookup k' (List.map (fun kv => if kv.1 = a then (a, v) else kv) tl) from by simp [List.lookup, beq_false_of_ne hk'k]]
        rw [ih, if_neg hk'k, if_neg hk'k]
        rw [show List.lookup k' ((a, b) :: tl) = List.lookup k' tl from by simp [List.lookup, beq_false_of_ne hk'k]]
    · rw [if_neg hak]
      by_cases hk'a : k' = a
      · subst hk'a
        rw [show List.lookup k' ((k', b) :: List.map (fun kv => if kv.1 = k then (k, v) else kv) tl) = some b from by simp [List.lookup]]
        rw [if_neg (by intro h; exact hak (h ▸ rfl))]
        rw [show List.lookup k' ((k', b) :: tl) = some b from by simp [List.lookup]]
      · rw [show List.lookup k' ((a, b) :: List.map (fun kv => if kv.1 = k then (k, v) else kv) tl) = List.lookup k' (List.map (fun kv => if kv.1 = k then (k, v) else kv) tl) from by simp [List.lookup, beq_false_of_ne hk'a]]
        rw [ih]
        by_cases hk'k : k' = k
        · rw [if_pos hk'k, if_pos hk'k]
          rw [show List.lookup k ((a, b) :: tl) = List.lookup k tl from by simp [List.lookup, beq_false_of_ne (fun h => hak h.symm)]]
        · rw [if_neg hk'k, if_neg hk'k]
          rw [show List.lookup k' ((a, b) :: tl) = List.lookup k' tl from by simp [List.lookup, beq_false_of_ne hk'a]]


theorem lookup_dictInsert (d : List (String × String)) (k v k' : String) :
    (dictInsert d k v).lookup k' = if k' = k then some v else d.lookup k' := by
  unfold dictInsert
  by_cases hp : (d.lookup k).isSome = true
  · rw [if_pos hp, lookup_replace]
    by_cases hk : k' = k
    · rw [if_pos hk, if_pos hk, if_pos hp]
    · rw [if_neg hk, if_neg hk]
  · rw [if_neg hp, lookup_append]
    have hnone : d.lookup k = none := by
      cases hd : d.lookup k
      · rfl
      · rw [hd] at hp; exact absurd rfl hp
    by_cases hk : k' = k
    · subst hk
      rw [hnone]
      simp [List.lookup]
    · cases hd : d.lookup k'
      · simp only [hd]
        rw [if_neg hk]
        simp [List.lookup, beq_false_of_ne hk, hd]
      · simp only [hd]
        rw [if_neg hk]

theorem lookup_dictMerge (b a : List (String × String)) (k : String) :
    (dictMerge a b).lookup k =
      match b.reverse.lookup k with
      | some v => some v
      | none => a.lookup k := by
  induction b generalizing a with
  | nil => rfl
  | cons p b ih =>
    obtain ⟨pk, pv⟩ := p
    show (dictMerge (dictInsert a pk pv) b).lookup k = _
    rw [ih]
    rw [show ((pk, pv) :: b).reverse = b.reverse ++ [(pk, pv)] from by simp]
    rw [lookup_append]
    cases hb : b.reverse.lookup k
    · simp only [hb, lookup_dictInsert]
      by_cases hk : k = pk
      · subst hk; simp [List.lookup]
      · simp [List.lookup, beq_false_of_ne hk, hk]
    · simp only [hb]


/-- C4: evaluation of the classifier at HTTP 429.  With no `Retry-After`
header the RateLimit failure's retry-after is absent; with an integer
header it is that integer; but with a present non-integer header the
source evaluates `int("abc")` and escapes with an uncaught `ValueError`
instead of raising the documented `ESBRateLimitError` — the claim (and
the method's documented `Raises` contract) is right and the code crashes. -/
theorem c4_retry_after_crash :
    handleResponse ⟨429, [("Retry-After", "abc")],
      some (.obj [("status", Json.str "fail"), ("message", Json.str "slow down")]), ""⟩ =
      .crash "ValueError" ∧
    handleResponse ⟨429, [("Retry-After", "5")],
      some (.obj [("status", Json.str "fail"), ("message", Json.str "slow down")]), ""⟩ =
      .failure { kind := .rateLimit, message := Json.str "slow down",
                 statusCode := some 429,
                 responseData := Json.obj [("status", Json.str "fail"),
                   ("message", Json.str "slow down")],
                 retryAfter := some 5 } ∧
    handleResponse ⟨429, [],
      some (.obj [("status", Json.str "fail"), ("message", Json.str "slow down")]), ""⟩ =
      .failure { kind := .rateLimit, message := Json.str "slow down",
                 statusCode := some 429,
                 responseData := Json.obj [("status", Json.str "fail"),
                   ("message", Json.str "slow down")],
                 retryAfter := none } :=
  ⟨rfl, rfl, rfl⟩

/-- C5 counterexample: the bearer strategy sets `Authorization`, yet a
caller-supplied `Authorization` header silently replaces it in the merged
request headers — contradicting the claim that caller headers take
precedence only for keys the auth strategy did not set. -/
theorem c5_counterexample :
    (prepareAuthBearer (some "tok")).lookup "Authorization" = some "Bearer tok" ∧
    (requestHeaders (prepareAuthBearer (some "tok"))
        [("Authorization", "Basic caller")]).lookup "Authorization" =
      some "Basic caller" :=
  ⟨rfl, rfl⟩

/-- C5 (amended): the headers sent are the auth strategy's headers merged
with the caller's, and the caller's entry (its last occurrence, matching
Python dict-unpacking semantics) wins for every key the caller supplies —
including `Authorization` — while auth-set headers survive only for keys
the caller did not set. -/
theorem c5_caller_precedence (authHeaders callerHeaders : List (String × String))
    (k : String) :
    (requestHeaders authHeaders callerHeaders).lookup k =
      match callerHeaders.reverse.lookup k with
      | some v => some v
      | none => authHeaders.lookup k :=
  lookup_dictMerge callerHeaders authHeaders k


/-- C6: every failing invocation of the session manager's refresh — whether
the local no-refresh-token error or any failure raised by the underlying
call — leaves the stored session state exactly as it was; the state is
replaced wholesale only on success.  With no token info the error is local
and independent of the collaborator. -/
theorem c6_refresh_all_or_nothing :
    (∀ (ti : Option TokenInfo) (call : String → CallResult RefreshResult),
        (refreshTokenOp ti call).2.isSome = true → (refreshTokenOp ti call).1 = ti)
  ∧ (∀ call : String → CallResult RefreshResult,
        refreshTokenOp none call =
          (none, some (.valueError "Cannot refresh: no refresh token available")))
  ∧ (∀ (ti : TokenInfo) (call : String → CallResult RefreshResult) (r : RefreshResult),
        ti.refreshToken ≠ "" → call ti.refreshToken = .ok r →
        refreshTokenOp (some ti) call =
          (some { accessToken := r.accessToken, refreshToken := r.refreshToken,
                  username := some r.username, companyCode := some r.companyCode },
           none)) := by
  refine ⟨?_, fun call => rfl, ?_⟩
  · intro ti call h
    cases ti with
    | none => rfl
    | some t =>
      simp only [refreshTokenOp] at h ⊢
      by_cases he : (t.refreshToken == "") = true
      · rw [if_pos he]
      · rw [if_neg he] at h ⊢
        rcases hc : call t.refreshToken with r | f | e
        · rw [hc] at h; simp at h
        · dsimp only
          by_cases ha : isAuthKind f.kind = true
          · rw [if_pos ha]
          · rw [if_neg ha]
        · rfl
  · intro ti call r hne hok
    simp only [refreshTokenOp]
    rw [if_neg (by simp [hne]), hok]

/-- Witness for C6 at a concrete input: refresh with no session state fails
(locally) and the state is unchanged (still absent). -/
theorem c6_refresh_all_or_nothing_witness :
    (refreshTokenOp none (fun _ => CallResult.otherErr "boom")).2.isSome = true ∧
    (refreshTokenOp none (fun _ => CallResult.otherErr "boom")).1 = none :=
  ⟨rfl, c6_refresh_all_or_nothing.1 none _ rfl⟩

/-- C8 counterexample: construction accepts `static_token=""` (it only
checks `is not None`), but `ensure_authenticated` tests the token's
truthiness — with the empty static token it is not a no-op: it invokes
login. -/
theorem c8_counterexample :
    (ensureAuthenticated (some "") none none none (.otherErr "unused")).loginInvoked
      = true :=
  rfl

/-- C8 (amended): for every client configured with a non-empty (truthy)
static token, ensure-authenticated is a no-op — state unchanged, login not
invoked, no network call; without a static token and with no existing
session it invokes login. -/
theorem c8_static_token_noop :
    (∀ (s : String) (u p : Option String) (ti : Option TokenInfo)
        (call : CallResult LoginResult), s ≠ "" →
        ensureAuthenticated (some s) u p ti call =
          { tokenInfo := ti, loginInvoked := false, networkCalled := false,
            error := none })
  ∧ (∀ (u p : Option String) (call : CallResult LoginResult),
        (ensureAuthenticated none u p none call).loginInvoked = true) := by
  constructor
  · intro s u p ti call hs
    unfold ensureAuthenticated
    rw [if_pos (by simp [optStrTruthy, hs])]
  · intro u p call
    unfold ensureAuthenticated
    rw [if_neg (by simp [optStrTruthy])]

/-- Witness for C8 at a concrete input: a non-empty static token makes
ensure-authenticated a pure no-op. -/
theorem c8_static_token_noop_witness :
    ("tkn" : String) ≠ "" ∧
    ensureAuthenticated (some "tkn") none none none (.otherErr "unused") =
      { tokenInfo := none, loginInvoked := false, networkCalled := false,
        error := none } :=
  ⟨by decide, c8_static_token_noop.1 "tkn" none none none _ (by decide)⟩

/-- C9 counterexample: for a non-JSON body with HTTP 500 the ServerError's
message is the prefixed string "Server error: boom", not the raw body text
"boom" itself. -/
theorem c9_counterexample :
    handleResponse ⟨500, [], none, "boom"⟩ =
      .failure { kind := .serverError, message := Json.str "Server error: boom",
                 statusCode := some 500 } ∧
    ("Server error: boom" : String) ≠ "boom" :=
  ⟨rfl, by decide⟩

/-- C9 (amended): a non-JSON-parseable body yields ServerError when the
HTTP status is at least 500 and a Generic error below 500, in both cases
carrying the status code and a message that embeds the raw body text after
a fixed prefix ("Server error: " / "Invalid response: "). -/
theorem c9_non_json (sc : Nat) (hdrs : List (String × String)) (text : String) :
    (500 ≤ sc → handleResponse ⟨sc, hdrs, none, text⟩ =
      .failure { kind := .serverError,
                 message := Json.str ("Server error: " ++ text),
                 statusCode := some sc })
  ∧ (sc < 500 → handleResponse ⟨sc, hdrs, none, text⟩ =
      .failure { kind := .generic,
                 message := Json.str ("Invalid response: " ++ text),
                 statusCode := some sc }) := by
  constructor
  · intro h
    simp only [handleResponse]
    rw [if_pos h]
  · intro h
    simp only [handleResponse]
    rw [if_neg (by omega)]

/-- Witness for C9 at concrete inputs on both sides of 500. -/
theorem c9_non_json_witness :
    (500 ≤ 502 ∧ handleResponse ⟨502, [], none, "x"⟩ =
      .failure { kind := .serverError, message := Json.str "Server error: x",
                 statusCode := some 502 }) ∧
    ((200 : Nat) < 500 ∧ handleResponse ⟨200, [], none, "x"⟩ =
      .failure { kind := .generic, message := Json.str "Invalid response: x",
                 statusCode := some 200 }) :=
  ⟨⟨by omega, (c9_non_json 502 [] "x").1 (by omega)⟩,
   ⟨by omega, (c9_non_json 200 [] "x").2 (by omega)⟩⟩

theorem truthy_extractMessage (fields : List (String × Json)) :
    pyTruthy (extractMessage fields) = true := by
  unfold extractMessage pyOrJ
  by_cases h1 : pyTruthy ((fields.lookup "message").getD Json.null) = true
  · rw [if_pos h1]; exact h1
  · rw [if_neg h1]
    by_cases h2 : pyTruthy ((fields.lookup "error").getD Json.null) = true
    · rw [if_pos h2]; exact h2
    · rw [if_neg h2]; rfl

theorem fallthrough_msg {sc : Nat} {fields : List (String × Json)} {f : Failure}
    (h : failStatusFallthrough sc fields = .failure f) :
    pyTruthy f.message = true := by
  have ht := truthy_extractMessage fields
  cases hm : extractMessage fields
  case str m =>
    rw [hm] at ht
    simp only [failStatusFallthrough, hm] at h
    split at h <;> (cases h; exact ht)
  all_goals (simp only [failStatusFallthrough, hm] at h; exact PyOutcome.noConfusion h)

theorem ec0110_msg {sc : Nat} {fields : List (String × Json)} {f : Failure}
    (h : ec0110Branch sc fields = .failure f) :
    pyTruthy f.message = true := by
  have ht := truthy_extractMessage fields
  cases hm : extractMessage fields
  case str m =>
    rw [hm] at ht
    simp only [ec0110Branch, hm] at h
    cases hp : parseJson m
    · simp only [hp] at h
      split at h <;> (cases h; exact ht)
    · case some v =>
        cases v <;> simp only [hp] at h <;>
          first
            | (cases h; rfl)
            | (split at h <;> (cases h; exact ht))
  all_goals (simp only [ec0110Branch, hm] at h; exact PyOutcome.noConfusion h)

theorem failStatusBranch_msg {sc : Nat} {fields : List (String × Json)} {f : Failure}
    (h : failStatusBranch sc fields = .failure f) :
    pyTruthy f.message = true := by
  have ht := truthy_extractMessage fields
  cases hc : extractCode fields
  case str c =>
    simp only [failStatusBranch, hc] at h
    by_cases h0 : (c == "") = true
    · rw [if_pos h0] at h; exact fallthrough_msg h
    · rw [if_neg h0] at h
      by_cases h1 : (c == "EC03100001" || c == "EC03100032") = true
      · rw [if_pos h1] at h; cases h; exact ht
      · rw [if_neg h1] at h
        by_cases h2 : (c == "EC03100003") = true
        · rw [if_pos h2] at h; cases h; exact ht
        · rw [if_neg h2] at h
          by_cases h3 : (c == "EC011401") = true
          · rw [if_pos h3] at h; cases h; exact ht
          · rw [if_neg h3] at h
            by_cases h4 : (c == "EC0110") = true
            · rw [if_pos h4] at h; exact ec0110_msg h
            · rw [if_neg h4] at h
              by_cases h5 : (c == "EC0118") = true
              · rw [if_pos h5] at h; cases h; exact ht
              · rw [if_neg h5] at h
                by_cases h6 : (c == "EC011400") = true
                · rw [if_pos h6] at h; cases h; exact ht
                · rw [if_neg h6] at h; exact fallthrough_msg h
  all_goals (simp only [failStatusBranch, hc] at h; exact fallthrough_msg h)

theorem objError_msg {sc : Nat} {hdrs : List (String × String)}
    {fields : List (String × Json)} {f : Failure}
    (h : objError sc hdrs fields = .failure f) :
    pyTruthy f.message = true := by
  have ht := truthy_extractMessage fields
  unfold objError at h
  by_cases h401 : sc = 401
  · rw [if_pos h401] at h; cases h; exact ht
  · rw [if_neg h401] at h
    by_cases h403 : sc = 403
    · rw [if_pos h403] at h; cases h; exact ht
    · rw [if_neg h403] at h
      by_cases h404 : sc = 404
      · rw [if_pos h404] at h; cases h; exact ht
      · rw [if_neg h404] at h
        by_cases h405 : sc = 405
        · rw [if_pos h405] at h; cases h; exact ht
        · rw [if_neg h405] at h
          by_cases h429 : sc = 429
          · rw [if_pos h429] at h
            rcases hra : headerGet hdrs "Retry-After" with _ | ra
            · simp only [hra] at h; cases h; exact ht
            · simp only [hra] at h
              by_cases hre : (ra == "") = true
              · rw [if_pos hre] at h; cases h; exact ht
              · rw [if_neg hre] at h
                rcases hpi : pyParseInt ra with _ | n
                · simp only [hpi] at h; exact PyOutcome.noConfusion h
                · simp only [hpi] at h; cases h; exact ht
          · rw [if_neg h429] at h
            by_cases h4x : (decide (sc = 400) || decide (sc = 422)) = true
            · rw [if_pos h4x] at h; cases h; exact ht
            · rw [if_neg h4x] at h
              by_cases h500 : sc ≥ 500
              · rw [if_pos h500] at h; cases h; exact ht
              · rw [if_neg h500] at h
                by_cases hf : isFailStatus (extractStatus fields) = true
                · rw [if_pos hf] at h; exact failStatusBranch_msg h
                · rw [if_neg hf] at h; cases h; exact ht


/-- C10: for every object body the extracted message is the `message` field
when truthy, else the `error` field when truthy, else "Unknown error" —
the fallback is by truthiness, so a present-but-empty `message` string is
skipped in favor of `error`; and every failure raised from an object body
carries a truthy (in particular non-empty-string) message. -/
theorem c10_message_truthiness :
    (∀ (fields : List (String × Json)) (j : Json),
        fields.lookup "message" = some j → pyTruthy j = true →
        extractMessage fields = j)
  ∧ (∀ (fields : List (String × Json)) (e : Json),
        pyTruthy ((fields.lookup "message").getD Json.null) = false →
        fields.lookup "error" = some e → pyTruthy e = true →
        extractMessage fields = e)
  ∧ (∀ fields : List (String × Json),
        pyTruthy ((fields.lookup "message").getD Json.null) = false →
        pyTruthy ((fields.lookup "error").getD Json.null) = false →
        extractMessage fields = Json.str "Unknown error")
  ∧ (∀ (sc : Nat) (hdrs : List (String × String)) (text : String)
       (fields : List (String × Json)) (f : Failure),
        handleResponse ⟨sc, hdrs, some (.obj fields), text⟩ = .failure f →
        pyTruthy f.message = true) := by
  refine ⟨?_, ?_, ?_, ?_⟩
  · intro fields j hj ht
    unfold extractMessage pyOrJ
    rw [hj, show (some j).getD Json.null = j from rfl, if_pos ht]
  · intro fields e hmf he ht
    unfold extractMessage pyOrJ
    rw [if_neg (by rw [hmf]; simp), he, show (some e).getD Json.null = e from rfl,
      if_pos ht]
  · intro fields hmf hef
    unfold extractMessage pyOrJ
    rw [if_neg (by rw [hmf]; simp), if_neg (by rw [hef]; simp)]
  · intro sc hdrs text fields f h
    simp only [handleResponse] at h
    by_cases hs : successTest fields sc = true
    · rw [if_pos hs] at h; exact PyOutcome.noConfusion h
    · rw [if_neg hs] at h; exact objError_msg h

/-- Witness for C10 at a concrete input: a present-but-empty `message`
field is skipped in favor of `error`, and the raised failure's message is
truthy. -/
theorem c10_message_truthiness_witness :
    pyTruthy ((([("message", Json.str ""), ("error", Json.str "E"),
        ("status", Json.str "01")] : List (String × Json)).lookup "message").getD
          Json.null) = false ∧
    extractMessage [("message", Json.str ""), ("error", Json.str "E"),
        ("status", Json.str "01")] = Json.str "E" ∧
    pyTruthy (Json.str "E") = true :=
  ⟨rfl,
   c10_message_truthiness.2.1
     [("message", Json.str ""), ("error", Json.str "E"), ("status", Json.str "01")]
     (Json.str "E") rfl rfl rfl,
   rfl⟩

theorem listBranch_kind {sc : Nat} {elems : List Json} {f : Failure}
    (h : listBranch sc elems = .failure f) :
    listKindSpec sc = some f.kind := by
  unfold listBranch at h
  unfold listKindSpec
  by_cases h400 : sc ≥ 400
  · rw [if_pos h400] at h ⊢
    dsimp only at h
    by_cases h401 : sc = 401
    · rw [if_pos h401] at h ⊢; cases h; rfl
    · rw [if_neg h401] at h ⊢
      by_cases h403 : sc = 403
      · rw [if_pos h403] at h ⊢; cases h; rfl
      · rw [if_neg h403] at h ⊢
        by_cases h404 : sc = 404
        · rw [if_pos h404] at h ⊢; cases h; rfl
        · rw [if_neg h404] at h ⊢
          by_cases h500 : sc ≥ 500
          · rw [if_pos h500] at h ⊢; cases h; rfl
          · rw [if_neg h500] at h ⊢; cases h; rfl
  · rw [if_neg h400] at h ⊢
    exact PyOutcome.noConfusion h

/-- C7 counterexample: two object bodies agreeing on HTTP status (200),
shape, `status` field ("fail") and `code` field ("EC0110") but differing
in `message` receive different failure kinds (NotFound vs Generic) — the
kind is not determined by (status code, shape, body.status, body.code)
alone. -/
theorem c7_counterexample :
    extractStatus [("status", Json.str "fail"), ("code", Json.str "EC0110"),
        ("message", Json.str "x not found")] =
      extractStatus [("status", Json.str "fail"), ("code", Json.str "EC0110"),
        ("message", Json.str "hello")] ∧
    extractCode [("status", Json.str "fail"), ("code", Json.str "EC0110"),
        ("message", Json.str "x not found")] =
      extractCode [("status", Json.str "fail"), ("code", Json.str "EC0110"),
        ("message", Json.str "hello")] ∧
    outcomeKind (handleResponse ⟨200, [],
      some (.obj [("status", Json.str "fail"), ("code", Json.str "EC0110"),
        ("message", Json.str "x not found")]), ""⟩) = some FailKind.notFound ∧
    outcomeKind (handleResponse ⟨200, [],
      some (.obj [("status", Json.str "fail"), ("code", Json.str "EC0110"),
        ("message", Json.str "hello")]), ""⟩) = some FailKind.generic :=
  ⟨rfl, rfl, rfl, rfl⟩

/-- C7 (amended): the failure kind of a failed call is fully determined by
(status code, body shape, body.status field, body.code field, extracted
message): for object bodies it equals `objKindSpec` applied to exactly
those values, for list bodies it equals `listKindSpec` of the status code
alone; consequently two object responses agreeing on all five components
receive the same kind. -/
theorem c7_kind_determinism :
    (∀ (sc : Nat) (hdrs : List (String × String)) (text : String)
       (fields : List (String × Json)) (f : Failure),
        handleResponse ⟨sc, hdrs, some (.obj fields), text⟩ = .failure f →
        objKindSpec sc (extractStatus fields) (extractCode fields)
          (extractMessage fields) = some f.kind)
  ∧ (∀ (sc : Nat) (hdrs : List (String × String)) (text : String)
       (elems : List Json) (f : Failure),
        handleResponse ⟨sc, hdrs, some (.arr elems), text⟩ = .failure f →
        listKindSpec sc = some f.kind)
  ∧ (∀ (sc : Nat) (hdrs1 hdrs2 : List (String × String)) (text1 text2 : String)
       (fields1 fields2 : List (String × Json)) (f1 f2 : Failure),
        extractStatus fields1 = extractStatus fields2 →
        extractCode fields1 = extractCode fields2 →
        extractMessage fields1 = extractMessage fields2 →
        handleResponse ⟨sc, hdrs1, some (.obj fields1), text1⟩ = .failure f1 →
        handleResponse ⟨sc, hdrs2, some (.obj fields2), text2⟩ = .failure f2 →
        f1.kind = f2.kind) := by
  refine ⟨?_, ?_, ?_⟩
  · intro sc hdrs text fields f h
    exact handleResponse_obj_kind h
  · intro sc hdrs text elems f h
    simp only [handleResponse] at h
    exact listBranch_kind h
  · intro sc hdrs1 hdrs2 text1 text2 fields1 fields2 f1 f2 hst hcd hmsg h1 h2
    have k1 := handleResponse_obj_kind h1
    have k2 := handleResponse_obj_kind h2
    rw [hst, hcd, hmsg] at k1
    rw [k1] at k2
    exact (Option.some.injEq _ _ ▸ k2 : _)

/-- Witness for C7 at concrete inputs: the spec-side kind functions agree
with concrete classifications for an object body and a list body. -/
theorem c7_kind_determinism_witness :
    objKindSpec 200
      (extractStatus [("status", Json.str "fail"), ("code", Json.str "EC0110"),
        ("message", Json.str "x not found")])
      (extractCode [("status", Json.str "fail"), ("code", Json.str "EC0110"),
        ("message", Json.str "x not found")])
      (extractMessage [("status", Json.str "fail"), ("code", Json.str "EC0110"),
        ("message", Json.str "x not found")]) =
      some ({ kind := FailKind.notFound, message := Json.str "x not found",
              code := Json.str "EC0110", statusCode := some 200,
              responseData := Json.obj [("status", Json.str "fail"),
                ("code", Json.str "EC0110"),
                ("message", Json.str "x not found")] } : Failure).kind ∧
    listKindSpec 401 =
      some ({ kind := FailKind.authentication, message := Json.str "Unauthorized",
              statusCode := some 401 } : Failure).kind :=
  ⟨c7_kind_determinism.1 200 [] ""
     [("status", Json.str "fail"), ("code", Json.str "EC0110"),
      ("message", Json.str "x not found")] _ rfl,
   c7_kind_determinism.2.1 401 [] "" [Json.obj [("message", Json.str "Unauthorized")]]
     _ rfl⟩

end EsbOms
